import Mathlib

/-!
Shallow embedding of the `dim` HTTP API client (src/dim/api.py and
src/dim/decorators.py).  The network is modelled as an oracle
`Net : Request → Response`; every operation returns its result together
with the list of HTTP requests it issued, so that claims about headers,
URLs and "zero network calls" can be stated directly.  Python exceptions
are modelled with `Except PyError`.
-/

namespace Dim

/-- Decoded JSON values, standing for the Python objects produced by
`response.json()` and passed as request parameters/bodies. -/
inductive JSON where
  | null
  | bool (b : Bool)
  | num (n : Int)
  | str (s : String)
  | arr (elems : List JSON)
  | obj (fields : List (String × JSON))
  deriving Repr

/-- Python truthiness of a decoded JSON value (`if response:` on a dict,
`if path:` on a string, ...). -/
def JSON.truthy : JSON → Bool
  | .null => false
  | .bool b => b
  | .num n => n != 0
  | .str s => !s.isEmpty
  | .arr xs => !xs.isEmpty
  | .obj kvs => !kvs.isEmpty

/-- Python `d.get(k)`-style lookup on a JSON object: the first binding of
the key, `none` when the key is missing or the value is not an object. -/
def JSON.lookup : JSON → String → Option JSON
  | .obj kvs, k => kvs.lookup k
  | _, _ => none

mutual

/-- Python `repr` of a decoded JSON value, used by `pyStr` below for the
non-string cases of the f-string `f"{self._token}"`. -/
def JSON.pyRepr : JSON → String
  | .null => "None"
  | .bool b => cond b "True" "False"
  | .num n => toString n
  | .str s => "'" ++ s ++ "'"
  | .arr xs => "[" ++ JSON.pyReprList xs ++ "]"
  | .obj kvs => "\x7b" ++ JSON.pyReprFields kvs ++ "\x7d"

def JSON.pyReprList : List JSON → String
  | [] => ""
  | [x] => JSON.pyRepr x
  | x :: y :: xs => JSON.pyRepr x ++ ", " ++ JSON.pyReprList (y :: xs)

def JSON.pyReprFields : List (String × JSON) → String
  | [] => ""
  | [kv] => "'" ++ kv.1 ++ "': " ++ JSON.pyRepr kv.2
  | kv :: kw :: kvs =>
      "'" ++ kv.1 ++ "': " ++ JSON.pyRepr kv.2 ++ ", " ++
        JSON.pyReprFields (kw :: kvs)

end

/-- Python `str()` of a decoded JSON value, as produced by the f-string
`f"{self._token}"` that renders the Authorization header value. -/
def JSON.pyStr : JSON → String
  | .str s => s
  | j => j.pyRepr

/-- HTTP verbs used by the transport core. -/
inductive Verb where
  | GET
  | POST
  | PATCH
  | DELETE
  deriving Repr, DecidableEq

/-- One HTTP request as handed to the session object: the verb-specific
`self._session.<verb>(url=..., params=..., headers=..., **kwargs)` call. -/
structure Request where
  verb : Verb
  url : String
  params : JSON
  headers : List (String × String)
  jsonBody : Option JSON
  deriving Repr

/-- The HTTP response object returned by the session (external
`objectrest`/`requests` response): `ok` is its success flag (2xx status),
`body` the decoded result of `.json()`, `text` the raw `.text`. -/
structure Response where
  ok : Bool
  body : JSON
  text : String
  deriving Repr

/-- Python truthiness of a response object: `bool(response)` is
`response.ok`, true exactly for a success (2xx) status. -/
def Response.truthy (r : Response) : Bool := r.ok

/-- The network oracle: what the server answers to each request. -/
abbrev Net := Request → Response

/-- Python exceptions that can escape the client's methods. -/
inductive PyError where
  | keyError (key : String)
  | exception (msg : String)
  deriving Repr, DecidableEq

/-- The client's mutable state: `self._url` and `self._token`
(`None` before authentication). -/
structure API where
  url : String
  token : Option JSON
  deriving Repr

/-- Modelled from the spec: `dim/static.py` (not under src/) defines
`empty_dict`, the empty mapping the `_json` transport variants return on
a falsy response. -/
def empty_dict : JSON := .obj []

/-- The `if not params: params = \x7b\x7d` normalization at the top of each
transport primitive. -/
def normParams : Option JSON → JSON
  | none => .obj []
  | some p => if p.truthy then p else .obj []

/-- Python truthiness of the stored token attribute, as tested by
`if self._token:` (both `None` and an empty string are falsy). -/
def API.tokenTruthy (api : API) : Bool :=
  match api.token with
  | none => false
  | some j => j.truthy

/-- The headers each transport primitive sends: `\x7b\x7d`, overwritten with
`\x7b'Authorization': f"\x7bself._token\x7d"\x7d` when the token is truthy. -/
def API.requestHeaders (api : API) : List (String × String) :=
  if api.tokenTruthy then [("Authorization", (api.token.getD .null).pyStr)] else []

/-- The request each transport primitive hands to the session:
url `f"\x7bself._url\x7d/\x7bcommand\x7d"`, normalized params, auth headers, and the
optional `json=` body forwarded through `**kwargs`. -/
def API.buildRequest (api : API) (v : Verb) (command : String)
    (params : Option JSON) (jsonBody : Option JSON) : Request :=
  { verb := v
    url := api.url ++ "/" ++ command
    params := normParams params
    headers := api.requestHeaders
    jsonBody := jsonBody }

/-- `API._get`: issue a GET and return the response (paired with the
singleton trace of the request issued). -/
def API._get (api : API) (net : Net) (command : String) (params : Option JSON) :
    Response × List Request :=
  let req := api.buildRequest .GET command params none
  (net req, [req])

/-- `API._post`: issue a POST (the `json=` keyword argument travels through
`**kwargs`). -/
def API._post (api : API) (net : Net) (command : String) (params : Option JSON)
    (jsonBody : Option JSON) : Response × List Request :=
  let req := api.buildRequest .POST command params jsonBody
  (net req, [req])

/-- `API._patch`: issue a PATCH. -/
def API._patch (api : API) (net : Net) (command : String) (params : Option JSON)
    (jsonBody : Option JSON) : Response × List Request :=
  let req := api.buildRequest .PATCH command params jsonBody
  (net req, [req])

/-- `API._delete`: issue a DELETE. -/
def API._delete (api : API) (net : Net) (command : String) (params : Option JSON)
    (jsonBody : Option JSON) : Response × List Request :=
  let req := api.buildRequest .DELETE command params jsonBody
  (net req, [req])

/-- `API._get_json`: call `_get`; on a truthy response return its decoded
JSON body, otherwise `static.empty_dict`. -/
def API._get_json (api : API) (net : Net) (command : String) (params : Option JSON) :
    JSON × List Request :=
  let (response, tr) := api._get net command params
  (if response.truthy then response.body else empty_dict, tr)

/-- `API._post_json`: call `_post`; on a truthy response return its decoded
JSON body, otherwise `static.empty_dict`. -/
def API._post_json (api : API) (net : Net) (command : String) (params : Option JSON)
    (jsonBody : Option JSON) : JSON × List Request :=
  let (response, tr) := api._post net command params jsonBody
  (if response.truthy then response.body else empty_dict, tr)

/-- `API._patch_json`: call `_patch`; on a truthy response return its decoded
JSON body, otherwise `static.empty_dict`. -/
def API._patch_json (api : API) (net : Net) (command : String) (params : Option JSON)
    (jsonBody : Option JSON) : JSON × List Request :=
  let (response, tr) := api._patch net command params jsonBody
  (if response.truthy then response.body else empty_dict, tr)

/-- `API._delete_json`: call `_delete`; on a truthy response return its decoded
JSON body, otherwise `static.empty_dict`. -/
def API._delete_json (api : API) (net : Net) (command : String) (params : Option JSON)
    (jsonBody : Option JSON) : JSON × List Request :=
  let (response, tr) := api._delete net command params jsonBody
  (if response.truthy then response.body else empty_dict, tr)

/-- The JSON body `\x7b"username": ..., "password": ...\x7d` posted by
`_authenticate`. -/
def credentialsBody (username password : String) : JSON :=
  .obj [("username", .str username), ("password", .str password)]

/-- `API._authenticate`: POST credentials to `auth/login`; if the decoded
body is truthy, store `response["token"]` (an unguarded subscript: a
missing key raises `KeyError`) and return `True`, else return `False`. -/
def API._authenticate (api : API) (net : Net) (username password : String) :
    Except PyError (API × Bool) × List Request :=
  let (response, tr) :=
    api._post_json net "auth/login" none (some (credentialsBody username password))
  if response.truthy then
    match response.lookup "token" with
    | some tok => (.ok ({ api with token := some tok }, true), tr)
    | none => (.error (.keyError "token"), tr)
  else
    (.ok (api, false), tr)

/-- Python's `base_url.endswith("/")`: the last character is a slash. -/
def pyEndsWithSlash (s : String) : Bool := s.data.getLast? == some '/'

/-- The `self._url` computed by `API.__init__`: strip one trailing slash
(`base_url[:-1]`) when `base_url.endswith("/")`, then append `/api/v1`. -/
def initUrl (base_url : String) : String :=
  (if pyEndsWithSlash base_url then base_url.dropRight 1 else base_url) ++ "/api/v1"

/-- The client state as it stands just after `__init__` sets `self._url`
and `self._token = None`, before `_authenticate` runs. -/
def initialAPI (base_url : String) : API :=
  { url := initUrl base_url, token := none }

/-- `API.__init__`: build the url, start with no token, run `_authenticate`;
raise `Exception("Authentication failed")` when it returns `False`, and let
any exception it raises propagate. -/
def API.init (base_url username password : String) (net : Net) :
    Except PyError API :=
  match (API._authenticate (initialAPI base_url) net username password).1 with
  | .ok (api2, true) => .ok api2
  | .ok (_, false) => .error (.exception "Authentication failed")
  | .error e => .error e

/-- Modelled from the spec: `dim/utils.py` (not under src/) defines
`_get_response_data`, the envelope-normalization step — strip the `data`
envelope key if present, else return the body unchanged, else return an
empty mapping on falsy input. -/
def _get_response_data (json_data : JSON) : JSON :=
  if json_data.truthy then
    match json_data.lookup "data" with
    | some v => v
    | none => json_data
  else empty_dict

/-- Modelled from the spec: `dim/utils.py` (not under src/) defines
`_is_invalid_choice`, which restricts a discriminator parameter to a fixed
set of allowed values: true exactly when the value is outside the set. -/
def _is_invalid_choice (value : String) (_name : String) (allowed : List String) : Bool :=
  !(allowed.contains value)

/-- Modelled from the spec: `dim/utils.py` (not under src/) defines
`build_optional_params`, which builds the optional parameter mapping from
keyword arguments, omitting the absent (`None`) ones. -/
def build_optional_params (kwargs : List (String × Option JSON)) : JSON :=
  .obj (kwargs.filterMap fun kv => kv.2.map fun v => (kv.1, v))

/-- Modelled from the spec: `dim/utils.py` (not under src/) defines
`int_list_to_string`, which renders an optional list of integers as a
single optional string parameter value. -/
def int_list_to_string : Option (List Int) → Option String
  | none => none
  | some xs => some (String.intercalate "," (xs.map toString))

/-- The `get_json` decorator of src/dim/decorators.py: the endpoint method
yields `(command, params)`; a falsy command short-circuits to `\x7b\x7d`,
otherwise `_get_json` runs and its body goes through `_get_response_data`. -/
def get_json_wrapped (api : API) (net : Net) (cp : String × Option JSON) :
    JSON × List Request :=
  let (command, params) := cp
  if command.isEmpty then (.obj [], [])
  else
    let (json_data, tr) := api._get_json net command params
    (_get_response_data json_data, tr)

/-- The `post_json` decorator of src/dim/decorators.py. -/
def post_json_wrapped (api : API) (net : Net) (cp : String × Option JSON) :
    JSON × List Request :=
  let (command, params) := cp
  if command.isEmpty then (.obj [], [])
  else
    let (json_data, tr) := api._post_json net command params none
    (_get_response_data json_data, tr)

/-- The `patch_json` decorator of src/dim/decorators.py. -/
def patch_json_wrapped (api : API) (net : Net) (cp : String × Option JSON) :
    JSON × List Request :=
  let (command, params) := cp
  if command.isEmpty then (.obj [], [])
  else
    let (json_data, tr) := api._patch_json net command params none
    (_get_response_data json_data, tr)

/-- The `delete_json` decorator of src/dim/decorators.py. -/
def delete_json_wrapped (api : API) (net : Net) (cp : String × Option JSON) :
    JSON × List Request :=
  let (command, params) := cp
  if command.isEmpty then (.obj [], [])
  else
    let (json_data, tr) := api._delete_json net command params none
    (_get_response_data json_data, tr)

/-- The `post_bool` decorator of src/dim/decorators.py: a falsy command
short-circuits to `False`, otherwise `_post` runs and `res.ok` is
returned. -/
def post_bool_wrapped (api : API) (net : Net) (cp : String × Option JSON) :
    Bool × List Request :=
  let (command, params) := cp
  if command.isEmpty then (false, [])
  else
    let (res, tr) := api._post net command params none
    (res.ok, tr)

/-- The `patch_bool` decorator of src/dim/decorators.py. -/
def patch_bool_wrapped (api : API) (net : Net) (cp : String × Option JSON) :
    Bool × List Request :=
  let (command, params) := cp
  if command.isEmpty then (false, [])
  else
    let (res, tr) := api._patch net command params none
    (res.ok, tr)

/-- The `delete_bool` decorator of src/dim/decorators.py. -/
def delete_bool_wrapped (api : API) (net : Net) (cp : String × Option JSON) :
    Bool × List Request :=
  let (command, params) := cp
  if command.isEmpty then (false, [])
  else
    let (res, tr) := api._delete net command params none
    (res.ok, tr)

/-- `API.update_media` (`@patch_bool`): `f'media/\x7bmedia_id\x7d', \x7b'data': kwargs\x7d`. -/
def API.update_media (api : API) (net : Net) (media_id : Int) (kwargs : JSON) :
    Bool × List Request :=
  patch_bool_wrapped api net ("media/" ++ toString media_id, some (.obj [("data", kwargs)]))

/-- `API.delete_media` (`@delete_bool`): `f'media/\x7bmedia_id\x7d', None`. -/
def API.delete_media (api : API) (net : Net) (media_id : Int) :
    Bool × List Request :=
  delete_bool_wrapped api net ("media/" ++ toString media_id, none)

/-- `API.map_progress` (`@post_bool`): `f'media/\x7bmedia_id\x7d/progress', None`. -/
def API.map_progress (api : API) (net : Net) (media_id : Int) :
    Bool × List Request :=
  post_bool_wrapped api net ("media/" ++ toString media_id ++ "/progress", none)

/-- `API.rematch_media_file` (`@patch_bool`): validates `media_type` against
`['movie', 'tv']` (raising `Exception("Invalid media type")` before any
request), then `f"mediafile/\x7bmedia_id\x7d/match", \x7b'tmdb_id': ..., 'media_type': ...\x7d`. -/
def API.rematch_media_file (api : API) (net : Net) (media_id : Int) (tmdb_id : Int)
    (media_type : String) : Except PyError Bool × List Request :=
  if _is_invalid_choice media_type "media_type" ["movie", "tv"] then
    (.error (.exception "Invalid media type"), [])
  else
    let (b, tr) := patch_bool_wrapped api net
      ("mediafile/" ++ toString media_id ++ "/match",
        some (.obj [("tmdb_id", .num tmdb_id), ("media_type", .str media_type)]))
    (.ok b, tr)

/-- `API.add_library`: validates `media_type` against `['movie', 'tv']`,
then POSTs `\x7b"locations": paths, "name": name, "media_type": media_type\x7d` to
`library` and returns `True` on a truthy response, `False` otherwise. -/
def API.add_library (api : API) (net : Net) (paths : List String) (name : String)
    (media_type : String) : Except PyError Bool × List Request :=
  if _is_invalid_choice media_type "media_type" ["movie", "tv"] then
    (.error (.exception "Invalid media type"), [])
  else
    let (response, tr) := api._post net "library" none
      (some (.obj [("locations", .arr (paths.map .str)), ("name", .str name),
                   ("media_type", .str media_type)]))
    (.ok (if response.truthy then true else false), tr)

/-- `API.delete_library` (`@delete_bool`): `f'library/\x7blibrary_id\x7d', None`. -/
def API.delete_library (api : API) (net : Net) (library_id : Int) :
    Bool × List Request :=
  delete_bool_wrapped api net ("library/" ++ toString library_id, none)

/-- `API.delete_tv_season` (`@delete_bool`):
`f'tv/\x7btv_id\x7d/season/\x7bseason_number\x7d', None`. -/
def API.delete_tv_season (api : API) (net : Net) (tv_id : Int) (season_number : Int) :
    Bool × List Request :=
  delete_bool_wrapped api net ("tv/" ++ toString tv_id ++ "/season/" ++ toString season_number, none)

/-- `API.delete_tv_episode` (`@delete_bool`): `f'episode/\x7bepisode_id\x7d', None`. -/
def API.delete_tv_episode (api : API) (net : Net) (episode_id : Int) :
    Bool × List Request :=
  delete_bool_wrapped api net ("episode/" ++ toString episode_id, none)

/-- `API.tmdb_search` (`@get_json`): validates `media_type` against
`['movie', 'tv']`, builds optional params from `query`, `media_type`,
`year`, then GETs `tmdb_search`. -/
def API.tmdb_search (api : API) (net : Net) (query : String) (media_type : String)
    (year : Option Int) : Except PyError JSON × List Request :=
  if _is_invalid_choice media_type "media_type" ["movie", "tv"] then
    (.error (.exception "Invalid media type"), [])
  else
    let params := build_optional_params
      [("query", some (.str query)), ("media_type", some (.str media_type)),
       ("year", year.map .num)]
    let (r, tr) := get_json_wrapped api net ("tmdb_search", some params)
    (.ok r, tr)

/-- `API.get_manifest`: GET `f'stream/\x7bstream_id\x7d/manifest.mpd'` with optional
params; return `res.text` on a truthy response, `None` otherwise. -/
def API.get_manifest (api : API) (net : Net) (stream_id : String) (start_num : Int)
    (should_kill : Bool) (includes : Option (List Int)) :
    Option String × List Request :=
  let includesStr := int_list_to_string includes
  let params := build_optional_params
    [("start_num", some (.num start_num)), ("should_kill", some (.bool should_kill)),
     ("includes", includesStr.map .str)]
  let (res, tr) := api._get net ("stream/" ++ stream_id ++ "/manifest.mpd") (some params)
  (if res.truthy then some res.text else none, tr)

/-- A server that always answers success with body `\x7b"foo": 1\x7d`. -/
def netFooBody : Net := fun _ => { ok := true, body := .obj [("foo", .num 1)], text := "" }

/-- A server that always answers success with body `\x7b"token": "abc"\x7d`. -/
def netGoodLogin : Net := fun _ => { ok := true, body := .obj [("token", .str "abc")], text := "" }

/-- A server that always answers a failing response with an empty body. -/
def netDown : Net := fun _ => { ok := false, body := .obj [], text := "" }

/-- A server that always answers success with body `\x7b"token": ""\x7d`. -/
def netEmptyToken : Net := fun _ => { ok := true, body := .obj [("token", .str "")], text := "" }

/-- A string built by appending onto a non-empty literal is non-empty. -/
theorem isEmpty_eq_false_of_data_ne_nil (s : String) (h : s.data ≠ []) :
    s.isEmpty = false := by
  cases hx : s.isEmpty
  · rfl
  · exact absurd (congrArg String.data ((String.isEmpty_iff s).mp hx)) (by simpa using h)

/-- The login request `_authenticate` hands to the session: a POST to
`auth/login` carrying the credentials as the `json=` body. -/
def loginRequest (api : API) (username password : String) : Request :=
  api.buildRequest .POST "auth/login" none (some (credentialsBody username password))

/-- The decoded login reply `response = self._post_json(...)` that
`_authenticate` inspects. -/
def API.loginBody (api : API) (net : Net) (username password : String) : JSON :=
  (api._post_json net "auth/login" none (some (credentialsBody username password))).1

/-- Unfolding lemma: the value `_authenticate` computes, by cases on the
truthiness of the decoded login body and the presence of the `token` key. -/
theorem _authenticate_spec (api : API) (net : Net) (u p : String) :
    (api._authenticate net u p).1 =
      (if (api.loginBody net u p).truthy then
        match (api.loginBody net u p).lookup "token" with
        | some tok => .ok ({ api with token := some tok }, true)
        | none => .error (.keyError "token")
       else .ok (api, false)) := by
  cases hct : (api.loginBody net u p).truthy with
  | false =>
      simp only [API._authenticate, API.loginBody] at hct ⊢
      rw [hct]
      simp
  | true =>
      simp only [API._authenticate, API.loginBody] at hct ⊢
      rw [hct]
      cases hl : ((api._post_json net "auth/login" none (some (credentialsBody u p))).1).lookup "token" <;>
        simp [hl]

/-- The trace of `_authenticate` is the single login request. -/
theorem _authenticate_trace (api : API) (net : Net) (u p : String) :
    (api._authenticate net u p).2 = [loginRequest api u p] := by
  simp only [API._authenticate]
  cases hct : ((api._post_json net "auth/login" none (some (credentialsBody u p))).1).truthy
  · simp [hct, API._post_json, API._post, loginRequest]
  · cases hl : ((api._post_json net "auth/login" none (some (credentialsBody u p))).1).lookup "token" <;>
      simp [hct, hl, API._post_json, API._post, loginRequest]

/-- When the HTTP login response is 2xx, the decoded login body is the
response's JSON body. -/
theorem loginBody_eq_of_ok (api : API) (net : Net) (u p : String)
    (h : (net (loginRequest api u p)).ok = true) :
    api.loginBody net u p = (net (loginRequest api u p)).body := by
  simp only [API.loginBody, API._post_json, API._post, Response.truthy, loginRequest] at h ⊢
  rw [h]
  simp

/-- C1: every `_json` transport variant (`_get_json`, `_post_json`,
`_patch_json`, `_delete_json`) invokes the corresponding non-JSON primitive
(identical request trace); when the HTTP response is truthy (2xx, `ok`) the
decoded JSON body is returned, and for every non-2xx/falsy response the
result is exactly the empty mapping. -/
theorem c1_json_variants_contract (api : API) (net : Net) (command : String)
    (params : Option JSON) (jsonBody : Option JSON) :
    (api._get_json net command params =
      ((if (api._get net command params).1.ok
          then (api._get net command params).1.body else JSON.obj []),
       (api._get net command params).2))
    ∧ (api._post_json net command params jsonBody =
      ((if (api._post net command params jsonBody).1.ok
          then (api._post net command params jsonBody).1.body else JSON.obj []),
       (api._post net command params jsonBody).2))
    ∧ (api._patch_json net command params jsonBody =
      ((if (api._patch net command params jsonBody).1.ok
          then (api._patch net command params jsonBody).1.body else JSON.obj []),
       (api._patch net command params jsonBody).2))
    ∧ (api._delete_json net command params jsonBody =
      ((if (api._delete net command params jsonBody).1.ok
          then (api._delete net command params jsonBody).1.body else JSON.obj []),
       (api._delete net command params jsonBody).2)) :=
  ⟨rfl, rfl, rfl, rfl⟩

/-- C4: envelope normalization — a body `\x7b"data": X\x7d` normalizes to `X`, the
falsy body `\x7b\x7d` normalizes to `\x7b\x7d`, a truthy body without a `data` key passes
through unchanged; and every JSON-returning shaping wrapper applies this
normalization to the decoded body of its transport call. -/
theorem c4_envelope_normalization :
    (∀ x : JSON, _get_response_data (.obj [("data", x)]) = x)
    ∧ _get_response_data (.obj []) = .obj []
    ∧ (∀ j : JSON, j.truthy = true → j.lookup "data" = none → _get_response_data j = j)
    ∧ (∀ (api : API) (net : Net) (command : String) (params : Option JSON),
        command.isEmpty = false →
          get_json_wrapped api net (command, params) =
            (_get_response_data (api._get_json net command params).1,
             (api._get_json net command params).2))
    ∧ (∀ (api : API) (net : Net) (command : String) (params : Option JSON),
        command.isEmpty = false →
          post_json_wrapped api net (command, params) =
            (_get_response_data (api._post_json net command params none).1,
             (api._post_json net command params none).2))
    ∧ (∀ (api : API) (net : Net) (command : String) (params : Option JSON),
        command.isEmpty = false →
          patch_json_wrapped api net (command, params) =
            (_get_response_data (api._patch_json net command params none).1,
             (api._patch_json net command params none).2))
    ∧ (∀ (api : API) (net : Net) (command : String) (params : Option JSON),
        command.isEmpty = false →
          delete_json_wrapped api net (command, params) =
            (_get_response_data (api._delete_json net command params none).1,
             (api._delete_json net command params none).2)) := by
  refine ⟨?_, rfl, ?_, ?_, ?_, ?_, ?_⟩
  · intro x
    simp [_get_response_data, JSON.truthy, JSON.lookup, List.lookup]
  · intro j h1 h2
    simp [_get_response_data, h1, h2]
  all_goals
    intro api net command params h
    simp [get_json_wrapped, post_json_wrapped, patch_json_wrapped, delete_json_wrapped,
      API._get_json, API._post_json, API._patch_json, API._delete_json,
      API._get, API._post, API._patch, API._delete, h]

/-- Witness for C4 at concrete inputs: `\x7b"data": [1,2,3]\x7d` unwraps to
`[1,2,3]`, `\x7b"foo": 1\x7d` passes through, and `get_json_wrapped` on a
non-empty command applies `_get_response_data` to the decoded body. -/
theorem c4_envelope_normalization_witness :
    _get_response_data (.obj [("data", .arr [.num 1, .num 2, .num 3])])
        = .arr [.num 1, .num 2, .num 3]
    ∧ _get_response_data (.obj [("foo", .num 1)]) = .obj [("foo", .num 1)]
    ∧ get_json_wrapped (initialAPI "http://host") netFooBody ("library", none) =
        (_get_response_data ((initialAPI "http://host")._get_json netFooBody "library" none).1,
         ((initialAPI "http://host")._get_json netFooBody "library" none).2) :=
  ⟨c4_envelope_normalization.1 _,
   c4_envelope_normalization.2.2.1 _ (by decide) (by rfl),
   c4_envelope_normalization.2.2.2.1 _ _ _ _ (by decide)⟩

/-- C7: every shaping wrapper, given a falsy (empty) computed path, skips
the network call entirely (empty request trace) and returns its default
empty value — `\x7b\x7d` for the JSON-returning wrappers and `False` for the
boolean-returning ones. -/
theorem c7_falsy_path_skips_network (api : API) (net : Net) (params : Option JSON) :
    get_json_wrapped api net ("", params) = (.obj [], [])
    ∧ post_json_wrapped api net ("", params) = (.obj [], [])
    ∧ patch_json_wrapped api net ("", params) = (.obj [], [])
    ∧ delete_json_wrapped api net ("", params) = (.obj [], [])
    ∧ post_bool_wrapped api net ("", params) = (false, [])
    ∧ patch_bool_wrapped api net ("", params) = (false, [])
    ∧ delete_bool_wrapped api net ("", params) = (false, []) :=
  ⟨rfl, rfl, rfl, rfl, rfl, rfl, rfl⟩

/-- C8: URL construction — one trailing slash is stripped from `base_url`
exactly once and `/api/v1` is appended exactly once; every transport request
targets `\x7bself._url\x7d/\x7bcommand\x7d`, so `base_url = "http://host/"` yields calls
against `http://host/api/v1/\x7bcommand\x7d` (a doubled trailing slash is stripped
only once, not repeatedly). -/
theorem c8_url_construction :
    (∀ b : String, pyEndsWithSlash b = true → initUrl b = b.dropRight 1 ++ "/api/v1")
    ∧ (∀ b : String, pyEndsWithSlash b = false → initUrl b = b ++ "/api/v1")
    ∧ initUrl "http://host/" = "http://host/api/v1"
    ∧ initUrl "http://host//" = "http://host//api/v1"
    ∧ (∀ (api : API) (v : Verb) (command : String) (p jb : Option JSON),
        (api.buildRequest v command p jb).url = api.url ++ "/" ++ command)
    ∧ (∀ (v : Verb) (command : String) (p jb : Option JSON),
        ((initialAPI "http://host/").buildRequest v command p jb).url
          = "http://host/api/v1/" ++ command) := by
  refine ⟨?_, ?_, by decide, by decide, fun api v command p jb => rfl,
    fun v command p jb => rfl⟩
  · intro b h
    simp [initUrl, h]
  · intro b h
    simp [initUrl, h]

/-- Witness for C8 at concrete inputs: a trailing slash is stripped, and a
base without one is kept as is. -/
theorem c8_url_construction_witness :
    pyEndsWithSlash "http://host/" = true
    ∧ initUrl "http://host/" = ("http://host/").dropRight 1 ++ "/api/v1"
    ∧ pyEndsWithSlash "http://host" = false
    ∧ initUrl "http://host" = "http://host" ++ "/api/v1" :=
  ⟨by decide, c8_url_construction.1 "http://host/" (by decide),
   by decide, c8_url_construction.2.1 "http://host" (by decide)⟩

/-- Counterexample to C3 as stated: a client whose stored token is the empty
string has the token *set*, yet `if self._token:` is falsy, so the built
request carries no Authorization header at all; this state is reachable,
since authenticating against a server whose login reply is
`\x7b"token": ""\x7d` stores the empty token and reports success. -/
theorem c3_counterexample :
    (({ url := "http://host/api/v1", token := some (.str "") } : API).token.isSome = true)
    ∧ (API.buildRequest { url := "http://host/api/v1", token := some (.str "") }
        .GET "library" none none).headers = []
    ∧ (API._authenticate (initialAPI "http://host") netEmptyToken "u" "p").1
        = .ok ({ url := "http://host/api/v1", token := some (.str "") }, true) :=
  ⟨rfl, rfl, rfl⟩

/-- C3 (amended): whenever the stored token is truthy (set *and* non-empty),
every request built by a transport primitive carries the header
`Authorization: \x7btoken\x7d` with the raw token and no scheme prefix; whenever
the token is falsy (absent, or set but empty), the request is still issued —
each primitive issues exactly one request unconditionally — just without an
Authorization header. -/
theorem c3_auth_header_invariant :
    (∀ (api : API) (v : Verb) (command : String) (p jb : Option JSON) (s : String),
        api.token = some (.str s) → s.isEmpty = false →
          (api.buildRequest v command p jb).headers = [("Authorization", s)])
    ∧ (∀ (api : API) (v : Verb) (command : String) (p jb : Option JSON) (tok : JSON),
        api.token = some tok → tok.truthy = true →
          (api.buildRequest v command p jb).headers = [("Authorization", tok.pyStr)])
    ∧ (∀ (api : API) (v : Verb) (command : String) (p jb : Option JSON),
        api.tokenTruthy = false →
          (api.buildRequest v command p jb).headers = [])
    ∧ (∀ (api : API) (net : Net) (command : String) (p : Option JSON),
        (api._get net command p).2 = [api.buildRequest .GET command p none])
    ∧ (∀ (api : API) (net : Net) (command : String) (p jb : Option JSON),
        (api._post net command p jb).2 = [api.buildRequest .POST command p jb])
    ∧ (∀ (api : API) (net : Net) (command : String) (p jb : Option JSON),
        (api._patch net command p jb).2 = [api.buildRequest .PATCH command p jb])
    ∧ (∀ (api : API) (net : Net) (command : String) (p jb : Option JSON),
        (api._delete net command p jb).2 = [api.buildRequest .DELETE command p jb]) := by
  refine ⟨?_, ?_, ?_, fun _ _ _ _ => rfl, fun _ _ _ _ _ => rfl,
    fun _ _ _ _ _ => rfl, fun _ _ _ _ _ => rfl⟩
  · intro api v command p jb s h1 h2
    simp [API.buildRequest, API.requestHeaders, API.tokenTruthy, h1, JSON.truthy, h2,
      JSON.pyStr]
  · intro api v command p jb tok h1 h2
    simp [API.buildRequest, API.requestHeaders, API.tokenTruthy, h1, h2]
  · intro api v command p jb h
    simp [API.buildRequest, API.requestHeaders, h]

/-- Witness for C3 (amended) at concrete inputs: a non-empty token "abc"
produces the raw Authorization header, an absent token produces none. -/
theorem c3_auth_header_invariant_witness :
    (API.buildRequest { url := "http://host/api/v1", token := some (.str "abc") }
        .GET "library" none none).headers = [("Authorization", "abc")]
    ∧ (API.buildRequest (initialAPI "http://host") .GET "library" none none).headers = [] :=
  ⟨c3_auth_header_invariant.1 _ _ _ _ _ _ rfl rfl,
   c3_auth_header_invariant.2.2.1 _ _ _ _ _ rfl⟩

/-- Counterexample to C2 as stated: against a server whose login reply is
2xx with the truthy body `\x7b"foo": 1\x7d` (no `token` key), `_authenticate`
neither returns true nor false — the unguarded `response["token"]` raises
`KeyError` — and construction fails with that `KeyError` even though
`_authenticate` never returned false. -/
theorem c2_counterexample :
    (netFooBody (loginRequest (initialAPI "http://host") "u" "p")).body.truthy = true
    ∧ (API._authenticate (initialAPI "http://host") netFooBody "u" "p").1
        = .error (.keyError "token")
    ∧ API.init "http://host" "u" "p" netFooBody = .error (.keyError "token") :=
  ⟨rfl, rfl, rfl⟩

/-- C2 (amended): `_authenticate` posts the credentials to the login
endpoint (single POST to `auth/login`); when the decoded reply is truthy
*and contains a `token` field* it stores that token and returns true; when
the decoded reply is falsy it returns false, leaving the token unchanged
(unset during construction); a truthy reply without a `token` field raises
`KeyError` instead.  Construction succeeds exactly when `_authenticate`
returns true, raises the authentication-failure exception when it returns
false, propagates its exception otherwise — so no constructed client exists
without a stored token. -/
theorem c2_authenticate_contract :
    (∀ (api : API) (net : Net) (u p : String) (tok : JSON),
        (api.loginBody net u p).truthy = true →
        (api.loginBody net u p).lookup "token" = some tok →
          (api._authenticate net u p).1 = .ok ({ api with token := some tok }, true))
    ∧ (∀ (api : API) (net : Net) (u p : String),
        (api.loginBody net u p).truthy = false →
          (api._authenticate net u p).1 = .ok (api, false))
    ∧ (∀ (api : API) (net : Net) (u p : String),
        (api._authenticate net u p).2 = [loginRequest api u p])
    ∧ (∀ (b u p : String) (net : Net),
        (∃ a : API, API.init b u p net = .ok a)
          ↔ (∃ a : API, ((initialAPI b)._authenticate net u p).1 = .ok (a, true)))
    ∧ (∀ (b u p : String) (net : Net) (a : API),
        ((initialAPI b)._authenticate net u p).1 = .ok (a, false) →
          API.init b u p net = .error (.exception "Authentication failed"))
    ∧ (∀ (b u p : String) (net : Net) (e : PyError),
        ((initialAPI b)._authenticate net u p).1 = .error e →
          API.init b u p net = .error e)
    ∧ (∀ (b u p : String) (net : Net) (a : API),
        API.init b u p net = .ok a → a.token.isSome = true) := by
  refine ⟨?_, ?_, _authenticate_trace, ?_, ?_, ?_, ?_⟩
  · intro api net u p tok h1 h2
    rw [_authenticate_spec, h1]
    simp [h2]
  · intro api net u p h1
    rw [_authenticate_spec, h1]
    simp
  · intro b u p net
    constructor
    · rintro ⟨a, ha⟩
      simp only [API.init] at ha
      rcases hA : ((initialAPI b)._authenticate net u p).1 with e | ⟨a2, bb⟩
      · rw [hA] at ha
        simp at ha
      · cases bb
        · rw [hA] at ha
          simp at ha
        · exact ⟨a2, rfl⟩
    · rintro ⟨a, ha⟩
      exact ⟨a, by simp only [API.init]; rw [ha]⟩
  · intro b u p net a h
    simp only [API.init]
    rw [h]
  · intro b u p net e h
    simp only [API.init]
    rw [h]
  · intro b u p net a h
    simp only [API.init] at h
    rcases hA : ((initialAPI b)._authenticate net u p).1 with e | ⟨a2, bb⟩
    · rw [hA] at h
      simp at h
    · cases bb
      · rw [hA] at h
        simp at h
      · rw [hA] at h
        simp only [Except.ok.injEq] at h
        subst h
        have hspec := _authenticate_spec (initialAPI b) net u p
        rw [hA] at hspec
        cases hct : ((initialAPI b).loginBody net u p).truthy
        · rw [hct] at hspec
          simp at hspec
        · rw [hct] at hspec
          cases hl : ((initialAPI b).loginBody net u p).lookup "token"
          · rw [hl] at hspec
            simp at hspec
          · rw [hl] at hspec
            simp only [if_true, Except.ok.injEq, Prod.mk.injEq] at hspec
            rw [hspec.1]
            rfl

/-- Witness for C2 (amended) at concrete inputs: a reply `\x7b"token": "abc"\x7d`
stores the token and returns true; a failing login returns false. -/
theorem c2_authenticate_contract_witness :
    (API._authenticate (initialAPI "http://host") netGoodLogin "u" "p").1
        = .ok ({ initialAPI "http://host" with token := some (.str "abc") }, true)
    ∧ (API._authenticate (initialAPI "http://host") netDown "u" "p").1
        = .ok (initialAPI "http://host", false) :=
  ⟨c2_authenticate_contract.1 _ _ _ _ _ rfl rfl,
   c2_authenticate_contract.2.1 _ _ _ _ rfl⟩

/-- C10: `_authenticate` returns false only when the decoded login body is
falsy; when the login POST succeeds (2xx) but the decoded body is truthy and
lacks a `token` key, the unguarded `response["token"]` raises `KeyError`,
and client construction fails with that `KeyError` — not with false, and not
with the documented authentication-failure exception. -/
theorem c10_missing_token_keyerror :
    (∀ (api : API) (net : Net) (u p : String) (a : API),
        (api._authenticate net u p).1 = .ok (a, false) →
          (api.loginBody net u p).truthy = false)
    ∧ (∀ (api : API) (net : Net) (u p : String),
        (net (loginRequest api u p)).ok = true →
        (net (loginRequest api u p)).body.truthy = true →
        (net (loginRequest api u p)).body.lookup "token" = none →
          (api._authenticate net u p).1 = .error (.keyError "token"))
    ∧ (∀ (b u p : String) (net : Net),
        (net (loginRequest (initialAPI b) u p)).ok = true →
        (net (loginRequest (initialAPI b) u p)).body.truthy = true →
        (net (loginRequest (initialAPI b) u p)).body.lookup "token" = none →
          API.init b u p net = .error (.keyError "token")
          ∧ API.init b u p net ≠ .error (.exception "Authentication failed")) := by
  have key : ∀ (api : API) (net : Net) (u p : String),
      (net (loginRequest api u p)).ok = true →
      (net (loginRequest api u p)).body.truthy = true →
      (net (loginRequest api u p)).body.lookup "token" = none →
        (api._authenticate net u p).1 = .error (.keyError "token") := by
    intro api net u p h1 h2 h3
    have hb := loginBody_eq_of_ok api net u p h1
    rw [_authenticate_spec, hb, h2, h3]
    simp
  refine ⟨?_, key, ?_⟩
  · intro api net u p a h
    cases hct : (api.loginBody net u p).truthy
    · rfl
    · exfalso
      have hspec := _authenticate_spec api net u p
      rw [h, hct] at hspec
      cases hl : (api.loginBody net u p).lookup "token"
      · rw [hl] at hspec
        simp at hspec
      · rw [hl] at hspec
        simp at hspec
  · intro b u p net h1 h2 h3
    have hA := key (initialAPI b) net u p h1 h2 h3
    constructor
    · simp only [API.init]
      rw [hA]
    · simp only [API.init]
      rw [hA]
      simp

/-- Witness for C10 at concrete inputs: the always-2xx server replying
`\x7b"foo": 1\x7d` makes `_authenticate` raise `KeyError` and construction fail
with it. -/
theorem c10_missing_token_keyerror_witness :
    (API._authenticate ({ url := "http://h/api/v1", token := none } : API)
        netFooBody "u" "p").1 = .error (.keyError "token")
    ∧ ((API.init "http://h" "u" "p" netFooBody = .error (.keyError "token"))
       ∧ API.init "http://h" "u" "p" netFooBody ≠ .error (.exception "Authentication failed")) :=
  ⟨c10_missing_token_keyerror.2.1 _ netFooBody "u" "p" rfl rfl rfl,
   c10_missing_token_keyerror.2.2 "http://h" "u" "p" netFooBody rfl rfl rfl⟩

/-- C5: for every endpoint method with a media-type parameter
(`tmdb_search`, `rematch_media_file`, `add_library`), a `media_type`
outside \x7bmovie, tv\x7d fails immediately with the invalid-argument error and
an empty request trace (zero network calls), while `movie` or `tv` proceeds
to the transport layer (exactly one request issued). -/
theorem c5_media_type_validation :
    (∀ (api : API) (net : Net) (q mt : String) (y : Option Int),
        mt ≠ "movie" → mt ≠ "tv" →
          api.tmdb_search net q mt y = (.error (.exception "Invalid media type"), []))
    ∧ (∀ (api : API) (net : Net) (q mt : String) (y : Option Int),
        (mt = "movie" ∨ mt = "tv") → (api.tmdb_search net q mt y).2.length = 1)
    ∧ (∀ (api : API) (net : Net) (mid tmdb : Int) (mt : String),
        mt ≠ "movie" → mt ≠ "tv" →
          api.rematch_media_file net mid tmdb mt
            = (.error (.exception "Invalid media type"), []))
    ∧ (∀ (api : API) (net : Net) (mid tmdb : Int) (mt : String),
        (mt = "movie" ∨ mt = "tv") →
          (api.rematch_media_file net mid tmdb mt).2.length = 1)
    ∧ (∀ (api : API) (net : Net) (paths : List String) (nm mt : String),
        mt ≠ "movie" → mt ≠ "tv" →
          api.add_library net paths nm mt
            = (.error (.exception "Invalid media type"), []))
    ∧ (∀ (api : API) (net : Net) (paths : List String) (nm mt : String),
        (mt = "movie" ∨ mt = "tv") → (api.add_library net paths nm mt).2.length = 1) := by
  refine ⟨?_, ?_, ?_, ?_, ?_, ?_⟩
  · intro api net q mt y h1 h2
    have hinv : _is_invalid_choice mt "media_type" ["movie", "tv"] = true := by
      simp [_is_invalid_choice, h1, h2]
    simp [API.tmdb_search, hinv]
  · intro api net q mt y h
    rcases h with rfl | rfl <;> rfl
  · intro api net mid tmdb mt h1 h2
    have hinv : _is_invalid_choice mt "media_type" ["movie", "tv"] = true := by
      simp [_is_invalid_choice, h1, h2]
    simp [API.rematch_media_file, hinv]
  · intro api net mid tmdb mt h
    have hcmd : (("mediafile/" ++ toString mid ++ "/match") : String).isEmpty = false := by
      apply isEmpty_eq_false_of_data_ne_nil
      simp [String.data_append]
    rcases h with rfl | rfl <;>
      simp [API.rematch_media_file, _is_invalid_choice, patch_bool_wrapped, hcmd,
        API._patch]
  · intro api net paths nm mt h1 h2
    have hinv : _is_invalid_choice mt "media_type" ["movie", "tv"] = true := by
      simp [_is_invalid_choice, h1, h2]
    simp [API.add_library, hinv]
  · intro api net paths nm mt h
    rcases h with rfl | rfl <;> rfl

/-- Witness for C5 at concrete inputs: `media_type="book"` fails with the
invalid-argument error and zero requests; `media_type="movie"` issues a
request. -/
theorem c5_media_type_validation_witness :
    (initialAPI "http://host").tmdb_search netDown "x" "book" none
        = (.error (.exception "Invalid media type"), [])
    ∧ ((initialAPI "http://host").tmdb_search netDown "x" "movie" none).2.length = 1 :=
  ⟨c5_media_type_validation.1 _ _ _ _ _ (by decide) (by decide),
   c5_media_type_validation.2.1 _ _ _ _ _ (Or.inl rfl)⟩

/-- C6: every boolean-returning endpoint method calls the matching non-JSON
transport primitive on its computed path and returns exactly the truthiness
(`ok`, 2xx) of the HTTP response, with no normalization of a response
body. -/
theorem c6_bool_endpoints (api : API) (net : Net) :
    (∀ (mid : Int) (kw : JSON),
        api.update_media net mid kw
          = ((api._patch net ("media/" ++ toString mid)
                (some (.obj [("data", kw)])) none).1.ok,
             (api._patch net ("media/" ++ toString mid)
                (some (.obj [("data", kw)])) none).2))
    ∧ (∀ mid : Int,
        api.delete_media net mid
          = ((api._delete net ("media/" ++ toString mid) none none).1.ok,
             (api._delete net ("media/" ++ toString mid) none none).2))
    ∧ (∀ mid : Int,
        api.map_progress net mid
          = ((api._post net ("media/" ++ toString mid ++ "/progress") none none).1.ok,
             (api._post net ("media/" ++ toString mid ++ "/progress") none none).2))
    ∧ (∀ (mid tmdb : Int) (mt : String), (mt = "movie" ∨ mt = "tv") →
        api.rematch_media_file net mid tmdb mt
          = (.ok (api._patch net ("mediafile/" ++ toString mid ++ "/match")
                (some (.obj [("tmdb_id", .num tmdb), ("media_type", .str mt)])) none).1.ok,
             (api._patch net ("mediafile/" ++ toString mid ++ "/match")
                (some (.obj [("tmdb_id", .num tmdb), ("media_type", .str mt)])) none).2))
    ∧ (∀ (paths : List String) (nm mt : String), (mt = "movie" ∨ mt = "tv") →
        api.add_library net paths nm mt
          = (.ok (api._post net "library" none
                (some (.obj [("locations", .arr (paths.map .str)), ("name", .str nm),
                             ("media_type", .str mt)]))).1.ok,
             (api._post net "library" none
                (some (.obj [("locations", .arr (paths.map .str)), ("name", .str nm),
                             ("media_type", .str mt)]))).2))
    ∧ (∀ lid : Int,
        api.delete_library net lid
          = ((api._delete net ("library/" ++ toString lid) none none).1.ok,
             (api._delete net ("library/" ++ toString lid) none none).2))
    ∧ (∀ (tv sn : Int),
        api.delete_tv_season net tv sn
          = ((api._delete net ("tv/" ++ toString tv ++ "/season/" ++ toString sn)
                none none).1.ok,
             (api._delete net ("tv/" ++ toString tv ++ "/season/" ++ toString sn)
                none none).2))
    ∧ (∀ eid : Int,
        api.delete_tv_episode net eid
          = ((api._delete net ("episode/" ++ toString eid) none none).1.ok,
             (api._delete net ("episode/" ++ toString eid) none none).2)) := by
  refine ⟨?_, ?_, ?_, ?_, ?_, ?_, ?_, ?_⟩
  · intro mid kw
    have hcmd : (("media/" ++ toString mid) : String).isEmpty = false := by
      apply isEmpty_eq_false_of_data_ne_nil
      simp [String.data_append]
    simp [API.update_media, patch_bool_wrapped, hcmd, API._patch]
  · intro mid
    have hcmd : (("media/" ++ toString mid) : String).isEmpty = false := by
      apply isEmpty_eq_false_of_data_ne_nil
      simp [String.data_append]
    simp [API.delete_media, delete_bool_wrapped, hcmd, API._delete]
  · intro mid
    have hcmd : (("media/" ++ toString mid ++ "/progress") : String).isEmpty = false := by
      apply isEmpty_eq_false_of_data_ne_nil
      simp [String.data_append]
    simp [API.map_progress, post_bool_wrapped, hcmd, API._post]
  · intro mid tmdb mt h
    have hcmd : (("mediafile/" ++ toString mid ++ "/match") : String).isEmpty = false := by
      apply isEmpty_eq_false_of_data_ne_nil
      simp [String.data_append]
    rcases h with rfl | rfl <;>
      simp [API.rematch_media_file, _is_invalid_choice, patch_bool_wrapped, hcmd,
        API._patch]
  · intro paths nm mt h
    rcases h with rfl | rfl <;>
      simp [API.add_library, _is_invalid_choice, API._post, Response.truthy]
  · intro lid
    have hcmd : (("library/" ++ toString lid) : String).isEmpty = false := by
      apply isEmpty_eq_false_of_data_ne_nil
      simp [String.data_append]
    simp [API.delete_library, delete_bool_wrapped, hcmd, API._delete]
  · intro tv sn
    have hcmd : (("tv/" ++ toString tv ++ "/season/" ++ toString sn) : String).isEmpty
        = false := by
      apply isEmpty_eq_false_of_data_ne_nil
      simp [String.data_append]
    simp [API.delete_tv_season, delete_bool_wrapped, hcmd, API._delete]
  · intro eid
    have hcmd : (("episode/" ++ toString eid) : String).isEmpty = false := by
      apply isEmpty_eq_false_of_data_ne_nil
      simp [String.data_append]
    simp [API.delete_tv_episode, delete_bool_wrapped, hcmd, API._delete]

/-- Witness for C6 at concrete inputs, applying the two conjuncts that carry
a media-type hypothesis. -/
theorem c6_bool_endpoints_witness :
    (initialAPI "http://host").rematch_media_file netDown 1 2 "movie"
      = (.ok ((initialAPI "http://host")._patch netDown
            ("mediafile/" ++ toString (1 : Int) ++ "/match")
            (some (.obj [("tmdb_id", .num 2), ("media_type", .str "movie")])) none).1.ok,
         ((initialAPI "http://host")._patch netDown
            ("mediafile/" ++ toString (1 : Int) ++ "/match")
            (some (.obj [("tmdb_id", .num 2), ("media_type", .str "movie")])) none).2)
    ∧ (initialAPI "http://host").add_library netDown ["/a"] "lib" "tv"
      = (.ok ((initialAPI "http://host")._post netDown "library" none
            (some (.obj [("locations", .arr [.str "/a"]), ("name", .str "lib"),
                         ("media_type", .str "tv")]))).1.ok,
         ((initialAPI "http://host")._post netDown "library" none
            (some (.obj [("locations", .arr [.str "/a"]), ("name", .str "lib"),
                         ("media_type", .str "tv")]))).2) :=
  ⟨(c6_bool_endpoints (initialAPI "http://host") netDown).2.2.2.1 1 2 "movie" (Or.inl rfl),
   (c6_bool_endpoints (initialAPI "http://host") netDown).2.2.2.2.1 ["/a"] "lib" "tv"
     (Or.inr rfl)⟩

/-- C9: `get_manifest` performs a GET against
`stream/\x7bstream_id\x7d/manifest.mpd` and returns the raw response text (not
JSON-decoded) when the HTTP response is truthy, `None` when it is falsy. -/
theorem c9_get_manifest (api : API) (net : Net) (stream_id : String) (start_num : Int)
    (should_kill : Bool) (includes : Option (List Int)) :
    ∃ p : Option JSON,
      api.get_manifest net stream_id start_num should_kill includes
        = ((if (api._get net ("stream/" ++ stream_id ++ "/manifest.mpd") p).1.ok
              then some (api._get net ("stream/" ++ stream_id ++ "/manifest.mpd") p).1.text
              else none),
           (api._get net ("stream/" ++ stream_id ++ "/manifest.mpd") p).2) :=
  ⟨some (build_optional_params
      [("start_num", some (.num start_num)), ("should_kill", some (.bool should_kill)),
       ("includes", (int_list_to_string includes).map .str)]), rfl⟩

end Dim
